import Mathlib

/-!
Verification of the transaction coordination subsystem of the
indexeddb-vdba-driver repository.

The repository ships the IndexedDBDatabase schema layer (Database.js),
which is embedded below directly from that source, together with the test
suite of the connection-level transaction coordinator (beginTransaction,
hasTransaction, runTransaction).  The coordinator implementation itself is
not part of the sources, so its operations are modelled from the design
document (sections 4.1 to 4.4 and 6): each such definition carries a doc
comment starting with "Modelled from the spec:".

Callbacks and handlers are represented by opaque Nat tokens; reference
identity of a transaction handle is represented by an id field that is
assigned freshly at creation and preserved on reuse.
-/

set_option autoImplicit false

/-- Modelled from the spec: the three transaction modes of section 3,
readonly, readwrite and versionchange. -/
inductive Mode where
  | readonly
  | readwrite
  | versionchange
deriving DecidableEq, Repr

/-- Modelled from the spec: the three-level mode ordering of the ModeLattice
(section 4.1), versionchange above readwrite above readonly. -/
def Mode.rank : Mode → Nat
  | Mode.readonly => 1
  | Mode.readwrite => 2
  | Mode.versionchange => 3

/-- Modelled from the spec: ModeLattice.compatible (section 4.1).  A request
is compatible with an existing transaction when the existing mode is greater
than or equal to the requested mode in the ordering. -/
def compatible (existing requested : Mode) : Bool :=
  decide (requested.rank ≤ existing.rank)

/-- Modelled from the spec: ScopeChecker.covers (section 4.2), a plain
subset test of the requested collection names against the bound scope. -/
def covers (scope requested : List String) : Bool :=
  requested.all (fun s => scope.contains s)

/-- Modelled from the spec: a handlers object with optional error, abort and
complete callbacks (section 4.3, argument normalization).  Callbacks are
opaque Nat tokens. -/
structure Handlers where
  error : Option Nat
  abort : Option Nat
  complete : Option Nat
deriving DecidableEq, Repr

/-- The handlers object carrying no callbacks. -/
def Handlers.none : Handlers :=
  { error := Option.none, abort := Option.none, complete := Option.none }

/-- Modelled from the spec: a TransactionHandle (section 3): mode, fixed
collection scope, and the three ordered handler lists.  The id field stands
for reference identity of the handle object: creation assigns a fresh id,
reuse preserves it. -/
structure TransactionHandle where
  id : Nat
  mode : Mode
  scope : List String
  abortHandlers : List Nat
  errorHandlers : List Nat
  completeHandlers : List Nat
deriving DecidableEq, Repr

/-- Modelled from the spec: appending the callbacks of a handlers object to
the corresponding handler lists of a handle (section 4.3 step 4: merge, not
replace). -/
def TransactionHandle.addHandlers (t : TransactionHandle) (h : Handlers) : TransactionHandle :=
  { t with
    errorHandlers := t.errorHandlers ++ h.error.toList
    abortHandlers := t.abortHandlers ++ h.abort.toList
    completeHandlers := t.completeHandlers ++ h.complete.toList }

/-- Modelled from the spec: a Connection (section 3): the collections known
to the database and at most one owned transaction handle.  nextId is the
fresh-identity counter backing the id field of newly created handles. -/
structure Connection where
  objectStoreNames : List String
  transaction : Option TransactionHandle
  nextId : Nat
deriving DecidableEq, Repr

/-- Modelled from the spec: the errors of section 7 raised synchronously by
the coordinator.  They are structural; the message text of the source tests
is reflected in the constructor names (scopeConflict carries the first
requested collection not present in the active scope). -/
inductive VdbaError where
  | invalidArgument
  | modeConflict
  | scopeConflict (store : String)
deriving DecidableEq, Repr

/-- Modelled from the spec: the collections argument of beginTransaction
(section 4.3): a single name, an array of names, or omitted. -/
inductive StoresArg where
  | omitted
  | one (name : String)
  | many (names : List String)
deriving DecidableEq, Repr

/-- Modelled from the spec: argument normalization of the collections
argument (section 4.3).  Omitted means all collections known to the database
at call time, a single name becomes a one-element set, and an empty array is
a usage error (InvalidArgument), not an empty-scope transaction. -/
def Connection.resolveStores (cx : Connection) : StoresArg → Except VdbaError (List String)
  | StoresArg.omitted => Except.ok cx.objectStoreNames
  | StoresArg.one n => Except.ok [n]
  | StoresArg.many ns =>
      if ns.isEmpty then Except.error VdbaError.invalidArgument else Except.ok ns

/-- Modelled from the spec: hasTransaction (section 6): true if a
transaction is active and, when a mode is given, its mode exactly equals the
requested mode. -/
def Connection.hasTransaction (cx : Connection) (omode : Option Mode) : Bool :=
  match cx.transaction with
  | Option.none => false
  | Option.some t =>
      match omode with
      | Option.none => true
      | Option.some m => t.mode == m

/-- Modelled from the spec: TransactionCoordinator.begin (section 4.3).
Argument normalization runs first (omitted mode defaults to readwrite, the
collections argument is resolved, an empty array raises InvalidArgument).
Then the decision algorithm: with no active transaction a new handle is
constructed with the resolved mode and collection set and stored as the
active handle; a forced versionchange transaction is returned as-is for any
request; otherwise the mode compatibility and scope coverage checks run and
on success the supplied handlers are appended to the active handle, which is
returned (merge, not replace). -/
def Connection.beginTransaction (cx : Connection) (omode : Option Mode) (stores : StoresArg)
    (hnd : Handlers) : Except VdbaError (TransactionHandle × Connection) :=
  match cx.resolveStores stores with
  | Except.error e => Except.error e
  | Except.ok req =>
      let mode := omode.getD Mode.readwrite
      match cx.transaction with
      | Option.none =>
          let t := TransactionHandle.addHandlers
            { id := cx.nextId, mode := mode, scope := req,
              abortHandlers := [], errorHandlers := [], completeHandlers := [] } hnd
          Except.ok (t, { cx with transaction := Option.some t, nextId := cx.nextId + 1 })
      | Option.some active =>
          if active.mode = Mode.versionchange then
            Except.ok (active, cx)
          else if !(compatible active.mode mode) then
            Except.error VdbaError.modeConflict
          else
            match req.find? (fun s => !(active.scope.contains s)) with
            | Option.some s => Except.error (VdbaError.scopeConflict s)
            | Option.none =>
                let t := active.addHandlers hnd
                Except.ok (t, { cx with transaction := Option.some t })

/-- The connection state after a beginTransaction call: the new state on
success, the unchanged state when the call raises an error. -/
def Connection.afterBegin (cx : Connection) (omode : Option Mode) (stores : StoresArg)
    (hnd : Handlers) : Connection :=
  match cx.beginTransaction omode stores hnd with
  | Except.ok p => p.2
  | Except.error _ => cx

/-- Modelled from the spec: runTransaction (sections 4.4 and 6).  Only the
synchronous argument validation and the delegation to beginTransaction are
modelled; the unit of work is an opaque Nat token because the claims concern
only the omission check.  The call fails synchronously with InvalidArgument
if the mode or the unit of work is omitted. -/
def Connection.runTransaction (cx : Connection) (omode : Option Mode) (stores : StoresArg)
    (work : Option Nat) : Except VdbaError Connection :=
  match omode, work with
  | Option.some m, Option.some _ =>
      (cx.beginTransaction (Option.some m) stores Handlers.none).map (fun p => p.2)
  | _, _ => Except.error VdbaError.invalidArgument

/-- The connection state after a runTransaction call: the new state on
success, the unchanged state when the call raises an error. -/
def Connection.afterRun (cx : Connection) (omode : Option Mode) (stores : StoresArg)
    (work : Option Nat) : Connection :=
  match cx.runTransaction omode stores work with
  | Except.ok cx2 => cx2
  | Except.error _ => cx

/-!
Embedding of src/lib/odba/indexeddb/Database.js.  The native IDBDatabase is
reduced to its objectStoreNames list, the only part the embedded methods
touch; creation options of createTable are dropped because no method under
verification reads them beyond passing them through to the engine.  A
callback invocation fn(error, ...) is represented by the error argument the
method passes to it (Option DbError, none meaning the undefined error slot
of a success call).
-/

/-- The native IDBDatabase as seen by Database.js: its object store name
list. -/
structure NativeDatabase where
  objectStoreNames : List String
deriving DecidableEq, Repr

/-- The engine call native.createObjectStore(name): adds the store.  From
the engine contract of spec section 6 it is only valid during a
versionchange transaction; the embedding records the attempted mutation. -/
def NativeDatabase.createObjectStore (ndb : NativeDatabase) (name : String) : NativeDatabase :=
  { objectStoreNames := ndb.objectStoreNames ++ [name] }

/-- The engine call native.deleteObjectStore(name): removes the store. -/
def NativeDatabase.deleteObjectStore (ndb : NativeDatabase) (name : String) : NativeDatabase :=
  { objectStoreNames := ndb.objectStoreNames.erase name }

/-- IndexedDBDatabase (Database.js constructor): the connection and the
native database handle. -/
structure IndexedDBDatabase where
  connection : Connection
  native : NativeDatabase
deriving DecidableEq, Repr

/-- The private transaction getter of Database.js: the active transaction of
the connection. -/
def IndexedDBDatabase.transaction (db : IndexedDBDatabase) : Option TransactionHandle :=
  db.connection.transaction

/-- IndexedDBDatabase.prototype.containsObjectStore. -/
def IndexedDBDatabase.containsObjectStore (db : IndexedDBDatabase) (name : String) : Bool :=
  db.native.objectStoreNames.contains name

/-- IndexedDBDatabase.prototype.containsObjectStores: res starts true and the
loop breaks on the first missing name. -/
def IndexedDBDatabase.containsObjectStores (db : IndexedDBDatabase) : List String → Bool
  | [] => true
  | n :: ns => if db.containsObjectStore n then db.containsObjectStores ns else false

/-- The check loop of IndexedDBDatabase.prototype.hasTables for a nonempty
name list: res starts true and the loop breaks on the first missing name. -/
def IndexedDBDatabase.hasTablesCheck (db : IndexedDBDatabase) : List String → Bool
  | [] => true
  | n :: ns => if db.containsObjectStore n then db.hasTablesCheck ns else false

/-- The structural errors Database.js passes to callbacks.  They stand for
the Error objects of the source; the constructor names reflect the message
text. -/
inductive DbError where
  | createTableOnlyIntoVersionChange
  | storeAlreadyExists (name : String)
  | createTablesOnlyIntoVersionChange
  | dropTableOnlyIntoVersionChange
deriving DecidableEq, Repr

/-- IndexedDBDatabase.prototype.hasTables: an empty name list reports false,
otherwise the inline containment loop decides; the callback error slot is
always undefined. -/
def IndexedDBDatabase.hasTables (db : IndexedDBDatabase) (names : List String) :
    Option DbError × Bool :=
  if names.length = 0 then (Option.none, false)
  else (Option.none, db.hasTablesCheck names)

/-- Outcome of a schema-mutation method of Database.js: the native database
afterwards, the error argument passed to the callback, and whether the
engine mutation call was made. -/
structure SchemaOutcome where
  native : NativeDatabase
  callbackError : Option DbError
  engineCalled : Bool
deriving DecidableEq, Repr

/-- IndexedDBDatabase.prototype.createTable: after argument handling, the
guard is tran = this.transaction; if (!tran) report the error; otherwise, if
the store already exists report that, else call native.createObjectStore and
report success.  The guard tests only the presence of a transaction, not its
mode. -/
def IndexedDBDatabase.createTable (db : IndexedDBDatabase) (name : String) : SchemaOutcome :=
  match db.transaction with
  | Option.none =>
      { native := db.native,
        callbackError := Option.some DbError.createTableOnlyIntoVersionChange,
        engineCalled := false }
  | Option.some _ =>
      if db.native.objectStoreNames.contains name then
        { native := db.native,
          callbackError := Option.some (DbError.storeAlreadyExists name),
          engineCalled := false }
      else
        { native := db.native.createObjectStore name,
          callbackError := Option.none,
          engineCalled := true }

/-- The creation loop of IndexedDBDatabase.prototype.createTables: one
native.createObjectStore call per entry, no containment check. -/
def NativeDatabase.createObjectStores (ndb : NativeDatabase) : List String → NativeDatabase
  | [] => ndb
  | n :: ns => (ndb.createObjectStore n).createObjectStores ns

/-- IndexedDBDatabase.prototype.createTables: guard is tran =
this.transaction; if (!tran) report the error; otherwise create every listed
store and report success.  As in createTable the guard tests only the
presence of a transaction. -/
def IndexedDBDatabase.createTables (db : IndexedDBDatabase) (stores : List String) :
    SchemaOutcome :=
  match db.transaction with
  | Option.none =>
      { native := db.native,
        callbackError := Option.some DbError.createTablesOnlyIntoVersionChange,
        engineCalled := false }
  | Option.some _ =>
      { native := db.native.createObjectStores stores,
        callbackError := Option.none,
        engineCalled := !stores.isEmpty }

/-- IndexedDBDatabase.prototype.dropTable: guard is
connection.hasTransaction("versionchange"); then the store is deleted when
it exists and the callback is invoked with no error either way. -/
def IndexedDBDatabase.dropTable (db : IndexedDBDatabase) (name : String) : SchemaOutcome :=
  if !(db.connection.hasTransaction (Option.some Mode.versionchange)) then
    { native := db.native,
      callbackError := Option.some DbError.dropTableOnlyIntoVersionChange,
      engineCalled := false }
  else if db.containsObjectStore name then
    { native := db.native.deleteObjectStore name,
      callbackError := Option.none,
      engineCalled := true }
  else
    { native := db.native,
      callbackError := Option.none,
      engineCalled := false }

/-!
Concrete fixtures, mirroring the schema of the test suite: a database with
object stores "session" and "user".
-/

/-- The store names of the test schema. -/
def schemaStores : List String := ["session", "user"]

/-- A readonly handle scoped to the user store. -/
def tRO : TransactionHandle :=
  { id := 0, mode := Mode.readonly, scope := ["user"],
    abortHandlers := [], errorHandlers := [], completeHandlers := [] }

/-- A readwrite handle scoped to the user store. -/
def tRW : TransactionHandle :=
  { id := 0, mode := Mode.readwrite, scope := ["user"],
    abortHandlers := [], errorHandlers := [], completeHandlers := [] }

/-- A versionchange handle, as forced during createDatabase or
alterDatabase. -/
def tVC : TransactionHandle :=
  { id := 0, mode := Mode.versionchange, scope := schemaStores,
    abortHandlers := [], errorHandlers := [], completeHandlers := [] }

/-- A connection with no active transaction. -/
def cxFree : Connection :=
  { objectStoreNames := schemaStores, transaction := Option.none, nextId := 1 }

/-- A connection whose active transaction is the readonly handle. -/
def cxRO : Connection :=
  { objectStoreNames := schemaStores, transaction := Option.some tRO, nextId := 1 }

/-- A connection whose active transaction is the readwrite handle. -/
def cxRW : Connection :=
  { objectStoreNames := schemaStores, transaction := Option.some tRW, nextId := 1 }

/-- A connection inside a database-creation or alteration context: its
active transaction is the versionchange handle. -/
def cxVC : Connection :=
  { objectStoreNames := schemaStores, transaction := Option.some tVC, nextId := 1 }

/-- A handlers object carrying one complete callback. -/
def hndComplete : Handlers :=
  { error := Option.none, abort := Option.none, complete := Option.some 1 }

/-- A database over the user store whose connection holds the active
readwrite handle. -/
def dbRW : IndexedDBDatabase :=
  { connection := cxRW, native := { objectStoreNames := ["user"] } }

/-- A database over the test schema whose connection holds the active
versionchange handle. -/
def dbVC : IndexedDBDatabase :=
  { connection := cxVC, native := { objectStoreNames := ["session", "user"] } }

/-!
Helper lemmas.
-/

/-- When the requested collections are covered by a scope, the search for a
collection outside the scope finds nothing. -/
theorem find_uncovered_eq_none (scope req : List String) (h : covers scope req = true) :
    req.find? (fun s => !(scope.contains s)) = Option.none := by
  rw [List.find?_eq_none]
  intro x hx
  rw [covers, List.all_eq_true] at h
  have hc := h x hx
  simp only [hc, Bool.not_true, Bool.false_eq_true, not_false_eq_true]

/-- A readonly or readwrite handle is not a versionchange handle. -/
theorem mode_ne_versionchange_of_data (t : TransactionHandle)
    (h : t.mode = Mode.readonly ∨ t.mode = Mode.readwrite) :
    ¬ (t.mode = Mode.versionchange) := by
  rcases h with h | h <;> simp [h]

/-- Every collections argument other than the empty array resolves
successfully. -/
theorem resolveStores_ok_of_ne_empty (cx : Connection) (stores : StoresArg)
    (h : stores ≠ StoresArg.many []) :
    ∃ req, cx.resolveStores stores = Except.ok req := by
  cases stores with
  | omitted => exact ⟨_, rfl⟩
  | one n => exact ⟨_, rfl⟩
  | many ns =>
      cases ns with
      | nil => exact absurd rfl h
      | cons a l => exact ⟨_, rfl⟩

/-!
Claim theorems.
-/

/-- C6: for every mode, every handlers argument and every connection state,
beginTransaction called with an empty array of collections fails
synchronously with InvalidArgument; no transaction handle is constructed and
the connection state is unchanged. -/
theorem beginTransaction_empty_stores (cx : Connection) (omode : Option Mode) (hnd : Handlers) :
    cx.beginTransaction omode (StoresArg.many []) hnd = Except.error VdbaError.invalidArgument
    ∧ cx.afterBegin omode (StoresArg.many []) hnd = cx := by
  constructor
  · rfl
  · rfl

/-- C7: hasTransaction with no argument is true exactly when a transaction
is active; hasTransaction with a mode is true exactly when a transaction is
active and its mode is equal to the given mode.  In particular, inside a
versionchange transaction both hasTransaction readonly and hasTransaction
readwrite are false, although versionchange dominates both modes in the
compatibility lattice. -/
theorem hasTransaction_exact_mode (cx : Connection) :
    (cx.hasTransaction Option.none = cx.transaction.isSome)
    ∧ (∀ m : Mode, cx.hasTransaction (Option.some m) = true ↔
        ∃ t, cx.transaction = Option.some t ∧ t.mode = m)
    ∧ (∀ t, cx.transaction = Option.some t → t.mode = Mode.versionchange →
        cx.hasTransaction (Option.some Mode.readonly) = false
        ∧ cx.hasTransaction (Option.some Mode.readwrite) = false
        ∧ compatible Mode.versionchange Mode.readonly = true
        ∧ compatible Mode.versionchange Mode.readwrite = true) := by
  refine ⟨?_, ?_, ?_⟩
  · cases h : cx.transaction <;> simp [Connection.hasTransaction, h]
  · intro m
    cases h : cx.transaction with
    | none => simp [Connection.hasTransaction, h]
    | some t =>
        constructor
        · intro hm
          refine ⟨t, rfl, ?_⟩
          have hb : (t.mode == m) = true := by
            simpa [Connection.hasTransaction, h] using hm
          exact eq_of_beq hb
        · rintro ⟨t2, ht2, hm⟩
          rw [Option.some.injEq] at ht2
          subst ht2
          simp [Connection.hasTransaction, h, hm]
  · intro t ht hvc
    refine ⟨?_, ?_, by decide, by decide⟩ <;>
      simp [Connection.hasTransaction, ht, hvc]

/-- C7 witness: inside the concrete versionchange connection, hasTransaction
readonly and hasTransaction readwrite are both false. -/
theorem hasTransaction_exact_mode_witness :
    cxVC.hasTransaction (Option.some Mode.readonly) = false
    ∧ cxVC.hasTransaction (Option.some Mode.readwrite) = false :=
  ⟨((hasTransaction_exact_mode cxVC).2.2 tVC rfl rfl).1,
   ((hasTransaction_exact_mode cxVC).2.2 tVC rfl rfl).2.1⟩

/-- C8: runTransaction fails synchronously with InvalidArgument whenever the
mode or the unit of work is omitted, and the connection state is unchanged
(no transaction is opened). -/
theorem runTransaction_requires_mode_and_work (cx : Connection) (omode : Option Mode)
    (stores : StoresArg) (work : Option Nat)
    (h : omode = Option.none ∨ work = Option.none) :
    cx.runTransaction omode stores work = Except.error VdbaError.invalidArgument
    ∧ cx.afterRun omode stores work = cx := by
  have h1 : cx.runTransaction omode stores work = Except.error VdbaError.invalidArgument := by
    cases omode with
    | none => cases work <;> rfl
    | some m =>
        cases work with
        | none => rfl
        | some w => rcases h with h | h <;> simp_all
  refine ⟨h1, ?_⟩
  rw [Connection.afterRun, h1]

/-- C8 witness: the call with neither mode nor unit of work fails with
InvalidArgument on the concrete free connection. -/
theorem runTransaction_requires_mode_and_work_witness :
    cxFree.runTransaction Option.none StoresArg.omitted Option.none =
      Except.error VdbaError.invalidArgument :=
  (runTransaction_requires_mode_and_work cxFree Option.none StoresArg.omitted Option.none
    (Or.inl rfl)).1

/-- C9: hasTables called with an empty name list reports (undefined, false)
through its callback, although the private containsObjectStores helper
returns true on the empty list. -/
theorem hasTables_empty_reports_false (db : IndexedDBDatabase) :
    db.hasTables [] = (Option.none, false) ∧ db.containsObjectStores [] = true :=
  ⟨rfl, rfl⟩

/-- C10: with a versionchange transaction active, dropTable invokes its
callback with no error whether or not the store exists; it calls the engine
deleteObjectStore exactly when the store exists and leaves the native
database unchanged otherwise. -/
theorem dropTable_silent_noop (db : IndexedDBDatabase) (name : String)
    (hvc : db.connection.hasTransaction (Option.some Mode.versionchange) = true) :
    (db.dropTable name).callbackError = Option.none
    ∧ ((db.dropTable name).engineCalled = db.containsObjectStore name)
    ∧ (db.containsObjectStore name = false → (db.dropTable name).native = db.native)
    ∧ (db.containsObjectStore name = true →
        (db.dropTable name).native = db.native.deleteObjectStore name) := by
  by_cases hc : db.containsObjectStore name = true
  · refine ⟨?_, ?_, ?_, ?_⟩ <;> simp [IndexedDBDatabase.dropTable, hvc, hc]
  · refine ⟨?_, ?_, ?_, ?_⟩ <;> simp_all [IndexedDBDatabase.dropTable, hvc]

/-- C10 witness: on the concrete versionchange database, dropping a
nonexistent store reports no error and leaves the schema unchanged. -/
theorem dropTable_silent_noop_witness :
    (dbVC.dropTable "nosuch").callbackError = Option.none
    ∧ (dbVC.dropTable "nosuch").native = dbVC.native :=
  ⟨(dropTable_silent_noop dbVC "nosuch" (by decide)).1,
   (dropTable_silent_noop dbVC "nosuch" (by decide)).2.2.1 (by decide)⟩

/-- C5: evaluation at the failing input.  With a readwrite transaction
active (so no versionchange transaction is active), createTable proceeds to
call the engine createObjectStore, mutating the schema, and invokes its
callback with no error; createTables behaves the same.  The guard of both
methods tests only the presence of a transaction, unlike dropTable,
createIndex and dropIndex, which test hasTransaction versionchange. -/
theorem createTable_mutates_under_readwrite :
    cxRW.hasTransaction (Option.some Mode.versionchange) = false
    ∧ tRW.mode = Mode.readwrite
    ∧ dbRW.createTable "session" =
        { native := { objectStoreNames := ["user", "session"] },
          callbackError := Option.none, engineCalled := true }
    ∧ dbRW.createTables ["session"] =
        { native := { objectStoreNames := ["user", "session"] },
          callbackError := Option.none, engineCalled := true } := by
  refine ⟨rfl, rfl, ?_, ?_⟩ <;> rfl

/-- C1 (amended): for a connection whose active transaction is readonly or
readwrite, a beginTransaction call whose resolved mode is compatible with
the active mode and whose resolved collections are covered by the active
scope returns the same handle instance (same id), with mode and scope
unchanged and the supplied handlers appended to the existing handler lists;
the returned handle becomes the stored active handle.  When the active
transaction is versionchange the same handle is returned as-is and newly
supplied handlers are not appended (see the counterexample). -/
theorem beginTransaction_merges_into_active (cx : Connection) (t : TransactionHandle)
    (omode : Option Mode) (stores : StoresArg) (hnd : Handlers) (req : List String)
    (hact : cx.transaction = Option.some t)
    (hdata : t.mode = Mode.readonly ∨ t.mode = Mode.readwrite)
    (hres : cx.resolveStores stores = Except.ok req)
    (hcompat : compatible t.mode (omode.getD Mode.readwrite) = true)
    (hcov : covers t.scope req = true) :
    cx.beginTransaction omode stores hnd =
      Except.ok (t.addHandlers hnd, { cx with transaction := Option.some (t.addHandlers hnd) })
    ∧ (t.addHandlers hnd).id = t.id
    ∧ (t.addHandlers hnd).mode = t.mode
    ∧ (t.addHandlers hnd).scope = t.scope
    ∧ (t.addHandlers hnd).errorHandlers = t.errorHandlers ++ hnd.error.toList
    ∧ (t.addHandlers hnd).abortHandlers = t.abortHandlers ++ hnd.abort.toList
    ∧ (t.addHandlers hnd).completeHandlers = t.completeHandlers ++ hnd.complete.toList := by
  have hnvc := mode_ne_versionchange_of_data t hdata
  have hfind : List.find? (fun s => !decide (s ∈ t.scope)) req = Option.none := by
    simpa using find_uncovered_eq_none t.scope req hcov
  refine ⟨?_, rfl, rfl, rfl, rfl, rfl, rfl⟩
  simp [Connection.beginTransaction, hres, hact, hnvc, hcompat, hfind]

/-- C1 witness: on the concrete readwrite connection, a readonly request on
the covered user store returns the active handle with the complete handler
appended. -/
theorem beginTransaction_merges_into_active_witness :
    cxRW.beginTransaction (Option.some Mode.readonly) (StoresArg.one "user") hndComplete =
      Except.ok (tRW.addHandlers hndComplete,
        { cxRW with transaction := Option.some (tRW.addHandlers hndComplete) }) :=
  (beginTransaction_merges_into_active cxRW tRW (Option.some Mode.readonly)
    (StoresArg.one "user") hndComplete ["user"] rfl (Or.inr rfl) rfl (by decide) (by decide)).1

/-- C1 counterexample: with the forced versionchange transaction active, the
requested mode is compatible with the active mode and the requested
collection is covered by the active scope, yet the handle is returned as-is:
the supplied complete handler is not appended to its handler list. -/
theorem beginTransaction_merges_counterexample :
    cxVC.transaction = Option.some tVC
    ∧ compatible tVC.mode ((Option.some Mode.readwrite).getD Mode.readwrite) = true
    ∧ cxVC.resolveStores (StoresArg.one "user") = Except.ok ["user"]
    ∧ covers tVC.scope ["user"] = true
    ∧ hndComplete.complete = Option.some 1
    ∧ cxVC.beginTransaction (Option.some Mode.readwrite) (StoresArg.one "user") hndComplete =
        Except.ok (tVC, cxVC)
    ∧ tVC.completeHandlers = []
    ∧ (tVC.addHandlers hndComplete).completeHandlers = [1] := by
  refine ⟨rfl, by decide, rfl, by decide, rfl, ?_, rfl, rfl⟩
  rfl

/-- C2 (amended): whenever a versionchange transaction is active (the
database-creation or alteration context), beginTransaction returns the
already-active handle as-is for every requested mode and every requested
collections argument other than the empty array, which still raises
InvalidArgument during argument normalization; the handle mode is
versionchange. -/
theorem beginTransaction_versionchange_as_is (cx : Connection) (t : TransactionHandle)
    (omode : Option Mode) (stores : StoresArg) (hnd : Handlers)
    (hact : cx.transaction = Option.some t)
    (hvc : t.mode = Mode.versionchange)
    (hne : stores ≠ StoresArg.many []) :
    cx.beginTransaction omode stores hnd = Except.ok (t, cx)
    ∧ t.mode = Mode.versionchange := by
  refine ⟨?_, hvc⟩
  rcases resolveStores_ok_of_ne_empty cx stores hne with ⟨req, hres⟩
  simp [Connection.beginTransaction, hres, hact, hvc]

/-- C2 witness: during the concrete versionchange context, a bare
beginTransaction call returns the forced versionchange handle as-is. -/
theorem beginTransaction_versionchange_as_is_witness :
    cxVC.beginTransaction Option.none StoresArg.omitted Handlers.none = Except.ok (tVC, cxVC)
    ∧ tVC.mode = Mode.versionchange :=
  beginTransaction_versionchange_as_is cxVC tVC Option.none StoresArg.omitted Handlers.none
    rfl rfl (by decide)

/-- C3: with a readonly transaction active, requesting readwrite mode,
explicitly or by omission (the omitted mode defaults to readwrite), fails
synchronously with ModeConflict, and the active transaction of the
connection is still the original readonly handle. -/
theorem beginTransaction_readonly_promotion_fails (cx : Connection) (t : TransactionHandle)
    (omode : Option Mode) (stores : StoresArg) (hnd : Handlers) (req : List String)
    (hact : cx.transaction = Option.some t)
    (hro : t.mode = Mode.readonly)
    (hm : omode = Option.some Mode.readwrite ∨ omode = Option.none)
    (hres : cx.resolveStores stores = Except.ok req) :
    cx.beginTransaction omode stores hnd = Except.error VdbaError.modeConflict
    ∧ (cx.afterBegin omode stores hnd).transaction = Option.some t := by
  have hmode : omode.getD Mode.readwrite = Mode.readwrite := by
    rcases hm with h | h <;> simp [h]
  have h1 : cx.beginTransaction omode stores hnd = Except.error VdbaError.modeConflict := by
    simp [Connection.beginTransaction, hres, hact, hro, hmode, compatible, Mode.rank]
  refine ⟨h1, ?_⟩
  rw [Connection.afterBegin, h1, hact]

/-- C3 witness: on the concrete readonly connection, an explicit readwrite
request fails with ModeConflict and the readonly handle stays active. -/
theorem beginTransaction_readonly_promotion_fails_witness :
    cxRO.beginTransaction (Option.some Mode.readwrite) StoresArg.omitted Handlers.none =
      Except.error VdbaError.modeConflict
    ∧ (cxRO.afterBegin (Option.some Mode.readwrite) StoresArg.omitted Handlers.none).transaction =
        Option.some tRO :=
  beginTransaction_readonly_promotion_fails cxRO tRO (Option.some Mode.readwrite)
    StoresArg.omitted Handlers.none schemaStores rfl rfl (Or.inl rfl) rfl

/-- C4: with a readonly or readwrite transaction active and a compatible
requested mode, a request whose resolved collections contain a name outside
the active scope fails synchronously with ScopeConflict carrying the first
such name (the first element of the resolved list not contained in the
scope), and the whole connection state, hence the active handle with its
mode and scope, is left untouched. -/
theorem beginTransaction_scope_conflict (cx : Connection) (t : TransactionHandle)
    (omode : Option Mode) (stores : StoresArg) (hnd : Handlers) (req : List String) (x : String)
    (hact : cx.transaction = Option.some t)
    (hdata : t.mode = Mode.readonly ∨ t.mode = Mode.readwrite)
    (hres : cx.resolveStores stores = Except.ok req)
    (hcompat : compatible t.mode (omode.getD Mode.readwrite) = true)
    (hfind : req.find? (fun s => !(t.scope.contains s)) = Option.some x) :
    cx.beginTransaction omode stores hnd = Except.error (VdbaError.scopeConflict x)
    ∧ cx.afterBegin omode stores hnd = cx
    ∧ x ∈ req
    ∧ t.scope.contains x = false := by
  have hnvc := mode_ne_versionchange_of_data t hdata
  have hfind2 : List.find? (fun s => !decide (s ∈ t.scope)) req = Option.some x := by
    simpa using hfind
  have h1 : cx.beginTransaction omode stores hnd = Except.error (VdbaError.scopeConflict x) := by
    simp [Connection.beginTransaction, hres, hact, hnvc, hcompat, hfind2]
  have hmem := List.mem_of_find?_eq_some hfind
  have hp := List.find?_some hfind
  refine ⟨h1, ?_, hmem, ?_⟩
  · rw [Connection.afterBegin, h1]
  · simpa using hp

/-- C4 witness: on the concrete readwrite connection scoped to the user
store, requesting the session store fails with ScopeConflict naming session
and leaves the connection unchanged. -/
theorem beginTransaction_scope_conflict_witness :
    cxRW.beginTransaction (Option.some Mode.readwrite) (StoresArg.one "session") Handlers.none =
      Except.error (VdbaError.scopeConflict "session")
    ∧ cxRW.afterBegin (Option.some Mode.readwrite) (StoresArg.one "session") Handlers.none =
        cxRW :=
  ⟨(beginTransaction_scope_conflict cxRW tRW (Option.some Mode.readwrite)
      (StoresArg.one "session") Handlers.none ["session"] "session"
      rfl (Or.inr rfl) rfl (by decide) (by decide)).1,
   (beginTransaction_scope_conflict cxRW tRW (Option.some Mode.readwrite)
      (StoresArg.one "session") Handlers.none ["session"] "session"
      rfl (Or.inr rfl) rfl (by decide) (by decide)).2.1⟩

/-- C2 counterexample: even inside the versionchange context, the empty
array of collections raises InvalidArgument during argument normalization
instead of returning the active handle, so not every requested collections
argument is answered with the active handle. -/
theorem beginTransaction_versionchange_counterexample :
    cxVC.transaction = Option.some tVC
    ∧ tVC.mode = Mode.versionchange
    ∧ cxVC.beginTransaction (Option.some Mode.readwrite) (StoresArg.many []) Handlers.none =
        Except.error VdbaError.invalidArgument :=
  ⟨rfl, rfl, rfl⟩
